import Mathlib

/-!
Verification of the Telerivet Python client's `Service` entity (service.py).

The client methods are embedded as pure functions from a dispatcher oracle to a
result paired with the list of HTTP requests issued, in order.  Parts of the
repository that service.py depends on but that are not in the excerpt
(entity.py, api.py, message.py, contactservicestate.py, and the remote server)
are modelled from the specification and marked as such in their doc comments.
-/

set_option autoImplicit false

namespace Telerivet

/-- JSON-compatible values exchanged with the Telerivet REST API. -/
inductive JValue : Type where
  | null : JValue
  | bool : Bool → JValue
  | num : Int → JValue
  | str : String → JValue
  | arr : List JValue → JValue
  | obj : List (String × JValue) → JValue

/-- A JSON object, represented as an association list from string keys to values. -/
abbrev JObj := List (String × JValue)

/-- First-match association-list lookup: the model of Python dict indexing and of
the `in` membership test (membership holds iff the lookup is `some`). -/
def alookup {α : Type} (k : String) : List (String × α) → Option α
  | [] => none
  | p :: rest => if p.1 = k then some p.2 else alookup k rest

/-- Removal of a key: the model of deleting a record from a keyed store. -/
def aerase {α : Type} (k : String) : List (String × α) → List (String × α)
  | [] => []
  | p :: rest => if p.1 = k then aerase k rest else p :: aerase k rest

/-- Insert-or-replace of a key: the model of storing a record in a keyed store. -/
def aset {α : Type} (k : String) (v : α) (l : List (String × α)) : List (String × α) :=
  (k, v) :: aerase k l

/-- Server-reported typed errors (spec section 7 taxonomy). -/
inductive ApiError : Type where
  | invalidParameter : String → ApiError
  | notFound : String → ApiError
  | permission : String → ApiError
  | api : String → ApiError

/-- Client-side Python runtime failures occurring outside the HTTP round trip,
such as concatenating a path with a missing or non-string contact id. -/
inductive ClientError : Type where
  | typeError : String → ClientError
  | attributeError : String → ClientError

/-- Any error surfaced to the caller of a client method. -/
inductive TError : Type where
  | client : ClientError → TError
  | server : ApiError → TError

/-- One HTTP request as handed to the dispatcher: method, path, JSON parameters. -/
structure Request : Type where
  method : String
  path : String
  params : JObj

/-- Modelled from the spec: the API dispatcher (api.doRequest, not under the
excerpt).  It maps a request to a parsed JSON-object response or to a typed
server error, with no retry and no suppression. -/
abbrev Dispatcher := Request → Except ApiError JObj

/-- Modelled from the spec: a Message entity (message.py, not under the excerpt).
The Entity constructor stores the raw data it is given. -/
structure Message : Type where
  data : JValue

/-- Modelled from the spec: a ContactServiceState entity (contactservicestate.py,
not under the excerpt), wrapping the raw state mapping returned by the server. -/
structure ContactServiceState : Type where
  data : JObj

/-- The state id of a ContactServiceState: the `id` field of its data mapping. -/
def ContactServiceState.sid (s : ContactServiceState) : Option JValue :=
  alookup "id" s.data

/-- The slice of a Contact entity that Service uses: its `id` attribute.
`none` models a contact whose id attribute is undefined or None in Python. -/
structure Contact : Type where
  id : Option String

/-- A Service entity: its read-only path components together with the generic
Entity state (field mapping and dirty set) that save() operates on. -/
structure Service : Type where
  project_id : String
  id : String
  fields : JObj
  dirty : List String

/-- service.py getBaseApiPath: the string
"/projects/%(project_id)s/services/%(id)s" formatted with the entity's
project_id and id fields. -/
def Service.getBaseApiPath (svc : Service) : String :=
  "/projects/" ++ svc.project_id ++ "/services/" ++ svc.id

/-- Python iteration over a JSON value, as the invoke post-processing loop uses
it: arrays yield their elements, objects yield their keys, strings yield their
one-character substrings; other values are not iterable (TypeError). -/
def jIter : JValue → Option (List JValue)
  | .arr xs => some xs
  | .obj fs => some (fs.map (fun f => JValue.str f.1))
  | .str s => some (s.toList.map (fun c => JValue.str (String.singleton c)))
  | _ => none

/-- A value in the mapping returned by invoke: either a raw JSON value, or the
materialized list of Message entities that replaces the raw sent_messages
entry. -/
inductive InvokeValue : Type where
  | raw : JValue → InvokeValue
  | messages : List Message → InvokeValue

/-- The mapping returned by Service.invoke. -/
abbrev InvokeResult := List (String × InvokeValue)

/-- Post-processing of the invoke response (service.py lines 92-101): when the
response contains a sent_messages key, each entry of that collection is wrapped
into a Message entity, in order, and stored back under the same key; otherwise
the response mapping is returned as-is (injected via InvokeValue.raw). -/
def processInvokeResult (resp : JObj) : Except TError InvokeResult :=
  match alookup "sent_messages" resp with
  | none => .ok (resp.map (fun kv => (kv.1, InvokeValue.raw kv.2)))
  | some v =>
    match jIter v with
    | none => .error (.client (.typeError "sent_messages object is not iterable"))
    | some items =>
      .ok (resp.map (fun kv =>
        (kv.1, if kv.1 = "sent_messages" then InvokeValue.messages (items.map Message.mk)
               else InvokeValue.raw kv.2)))

/-- service.py Service.invoke: a single POST to getBaseApiPath() + "/invoke"
with the caller's options forwarded unchanged, followed by sent_messages
post-processing of the response. -/
def Service.invoke (svc : Service) (d : Dispatcher) (options : JObj) :
    Except TError InvokeResult × List Request :=
  let req : Request := ⟨"POST", svc.getBaseApiPath ++ "/invoke", options⟩
  match d req with
  | .error e => (.error (.server e), [req])
  | .ok resp => (processInvokeResult resp, [req])

/-- The per-contact state resource path getBaseApiPath() + "/states/" +
contact.id.  In Python the string concatenation raises before any request is
issued when the contact has no string id; that failure is the `none` case. -/
def contactStatePath (svc : Service) (c : Contact) : Option String :=
  c.id.map (fun cid => svc.getBaseApiPath ++ "/states/" ++ cid)

/-- service.py Service.getContactState: GET the per-contact state resource and
wrap the response mapping into a ContactServiceState. -/
def Service.getContactState (svc : Service) (d : Dispatcher) (c : Contact) :
    Except TError ContactServiceState × List Request :=
  match contactStatePath svc c with
  | none => (.error (.client (.typeError "contact id is not a string")), [])
  | some path =>
    let req : Request := ⟨"GET", path, []⟩
    match d req with
    | .error e => (.error (.server e), [req])
    | .ok resp => (.ok ⟨resp⟩, [req])

/-- service.py Service.setContactState: POST the caller's options to the
per-contact state resource and wrap the response into a ContactServiceState. -/
def Service.setContactState (svc : Service) (d : Dispatcher) (c : Contact)
    (options : JObj) : Except TError ContactServiceState × List Request :=
  match contactStatePath svc c with
  | none => (.error (.client (.typeError "contact id is not a string")), [])
  | some path =>
    let req : Request := ⟨"POST", path, options⟩
    match d req with
    | .error e => (.error (.server e), [req])
    | .ok resp => (.ok ⟨resp⟩, [req])

/-- service.py Service.resetContactState: DELETE the per-contact state resource
and wrap the response into a ContactServiceState. -/
def Service.resetContactState (svc : Service) (d : Dispatcher) (c : Contact) :
    Except TError ContactServiceState × List Request :=
  match contactStatePath svc c with
  | none => (.error (.client (.typeError "contact id is not a string")), [])
  | some path =>
    let req : Request := ⟨"DELETE", path, []⟩
    match d req with
    | .error e => (.error (.server e), [req])
    | .ok resp => (.ok ⟨resp⟩, [req])

/-- Modelled from the spec: an APICursor (api.newApiCursor, not under the
excerpt) stores the item type, the listing path and the filter options at
construction and issues no request; the first page is fetched on first
access. -/
structure APICursor : Type where
  itemType : String
  path : String
  options : JObj
  buffer : JObj
  fetched : Bool

/-- Modelled from the spec: cursor construction stores its parameters only and
starts in the unfetched state. -/
def newApiCursor (itemType : String) (path : String) (options : JObj) : APICursor :=
  ⟨itemType, path, options, [], false⟩

/-- Modelled from the spec: on first access the cursor issues one GET to its
listing path with the stored filter options and stores the returned items. -/
def APICursor.firstFetch (c : APICursor) (d : Dispatcher) :
    (APICursor × Except TError Unit) × List Request :=
  if c.fetched then ((c, .ok ()), [])
  else
    let req : Request := ⟨"GET", c.path, c.options⟩
    match d req with
    | .error e => ((c, .error (.server e)), [req])
    | .ok resp => (({c with buffer := resp, fetched := true}, .ok ()), [req])

/-- service.py Service.queryContactStates: newApiCursor over ContactServiceState
at getBaseApiPath() + "/states" with the filter options; no request is issued
by this call itself. -/
def Service.queryContactStates (svc : Service) (options : JObj) :
    APICursor × List Request :=
  (newApiCursor "ContactServiceState" (svc.getBaseApiPath ++ "/states") options, [])

/-- The payload save() sends: the dirty fields of the entity, and only those. -/
def dirtyPayload (svc : Service) : JObj :=
  svc.fields.filter (fun kv => svc.dirty.contains kv.1)

/-- service.py Service.save delegates to Entity.save.  Modelled from the spec
(entity.py is not under the excerpt): with no dirty fields no request is made;
otherwise one POST of only the dirty fields to the base path, clearing the
dirty set on success and leaving the entity unchanged on error. -/
def Service.save (svc : Service) (d : Dispatcher) :
    (Service × Except TError Unit) × List Request :=
  if svc.dirty = [] then ((svc, .ok ()), [])
  else
    let req : Request := ⟨"POST", svc.getBaseApiPath, dirtyPayload svc⟩
    match d req with
    | .error e => ((svc, .error (.server e)), [req])
    | .ok _ => (({svc with dirty := []}, .ok ()), [req])

/-- A request against a single per-contact state resource, as routed by HTTP
method. -/
inductive StateReq : Type where
  | get : StateReq
  | post : JObj → StateReq
  | del : StateReq
  | other : String → StateReq

/-- Routing of an HTTP method with its parameters to a state-resource
request. -/
def routeState (method : String) (params : JObj) : StateReq :=
  if method = "GET" then .get
  else if method = "POST" then .post params
  else if method = "DELETE" then .del
  else .other method

/-- The record the server returns for a contact with no stored state: a valid
placeholder with a null id, not a not-found error. -/
def placeholderState : JObj := [("id", JValue.null)]

/-- Modelled from the spec: the server's handling of the per-(service, contact)
state resource, which is not part of this repository.  GET returns the stored
state or the null-id placeholder; POST with a null id resets the state (the
documented alternate meaning of the id field), POST with a present id stores
the body; DELETE resets the state. -/
def serverStateTransition (store : List (String × JObj)) (cid : String) :
    StateReq → List (String × JObj) × Except ApiError JObj
  | .get => (store, .ok ((alookup cid store).getD placeholderState))
  | .post params =>
    match alookup "id" params with
    | some JValue.null => (aerase cid store, .ok placeholderState)
    | some _ => (aset cid params store, .ok params)
    | none => (store, .error (.invalidParameter "id is required"))
  | .del => (aerase cid store, .ok placeholderState)
  | .other m => (store, .error (.invalidParameter m))

/-- Modelled from the spec: a dispatcher backed by the server's state store,
serving the single per-contact state resource at base + "/states/" + cid. -/
def stateDispatcher (store : List (String × JObj)) (base cid : String) : Dispatcher :=
  fun req =>
    if req.path = base ++ "/states/" ++ cid then
      (serverStateTransition store cid (routeState req.method req.params)).2
    else .error (.notFound "no such resource")

/-- A dispatcher returning a fixed successful response for every request. -/
def constOk (resp : JObj) : Dispatcher := fun _ => .ok resp

/-- A dispatcher failing every request with a fixed server error. -/
def constErr (e : ApiError) : Dispatcher := fun _ => .error e

/-- A concrete service used to instantiate the theorems: one dirty field. -/
def svcEx : Service :=
  ⟨"PJ1", "SV1", [("name", JValue.str "poll"), ("active", JValue.bool true)], ["name"]⟩

/-- A concrete service with an empty dirty set. -/
def svcClean : Service := ⟨"PJ1", "SV1", [("name", JValue.str "poll")], []⟩

/-- A concrete contact with a defined string id. -/
def contactEx : Contact := ⟨some "CT1"⟩

/-- A concrete contact without a defined string id. -/
def contactNone : Contact := ⟨none⟩

/-- A concrete raw message mapping, as an entry of sent_messages. -/
def msgDataEx : JValue := JValue.obj [("id", JValue.str "MSG1")]

/-- A concrete invoke response containing a sent_messages collection. -/
def respEx : JObj :=
  [("return_value", JValue.str "ok"), ("sent_messages", JValue.arr [msgDataEx])]

/-- A concrete invoke response without a sent_messages key. -/
def respPlain : JObj := [("return_value", JValue.str "ok")]

/-- A concrete server state store with a state for one other contact. -/
def storeEx : List (String × JObj) := [("CT2", [("id", JValue.str "q1")])]

theorem alookup_map_val {α β : Type} (k : String) (f : String → α → β)
    (l : List (String × α)) :
    alookup k (l.map (fun kv => (kv.1, f kv.1 kv.2))) = (alookup k l).map (f k) := by
  induction l with
  | nil => rfl
  | cons p rest ih =>
    by_cases h : p.1 = k
    · simp [alookup, h]
    · simp [alookup, h, ih]

/-- C1: for every call to Service.invoke, when the dispatcher's response mapping
contains a sent_messages key, the returned mapping carries under that key the
list of Message entities built from the raw entries; when the response has no
sent_messages key, the response mapping is returned as-is. -/
theorem invoke_materializes_sent_messages (svc : Service) (opts resp : JObj) :
    (alookup "sent_messages" resp = none →
      (svc.invoke (constOk resp) opts).1 =
        .ok (resp.map (fun kv => (kv.1, InvokeValue.raw kv.2))))
    ∧ (∀ xs : List JValue, alookup "sent_messages" resp = some (JValue.arr xs) →
      ∃ m : InvokeResult, (svc.invoke (constOk resp) opts).1 = .ok m ∧
        alookup "sent_messages" m =
          some (InvokeValue.messages (xs.map Message.mk))) := by
  constructor
  · intro h
    simp [Service.invoke, constOk, processInvokeResult, h]
  · intro xs h
    refine ⟨resp.map (fun kv =>
      (kv.1, if kv.1 = "sent_messages"
             then InvokeValue.messages (xs.map Message.mk)
             else InvokeValue.raw kv.2)), ?_, ?_⟩
    · simp [Service.invoke, constOk, processInvokeResult, h, jIter]
    · rw [alookup_map_val "sent_messages"
        (fun k v => if k = "sent_messages"
                    then InvokeValue.messages (xs.map Message.mk)
                    else InvokeValue.raw v) resp, h]
      simp

/-- Witness for C1 at a concrete service and response. -/
theorem invoke_materializes_sent_messages_witness :
    ∃ m : InvokeResult, (svcEx.invoke (constOk respEx) []).1 = .ok m ∧
      alookup "sent_messages" m =
        some (InvokeValue.messages ([msgDataEx].map Message.mk)) :=
  (invoke_materializes_sent_messages svcEx [] respEx).2 [msgDataEx] rfl

/-- C9: the mapping invoke returns has the same keys as the dispatcher's
response and the same values except under sent_messages, where the
materialized Message list has the same length and order as the raw
collection, the entity at index i being built from the raw entry at i. -/
theorem invoke_response_frame (svc : Service) (opts resp : JObj) :
    (alookup "sent_messages" resp = none →
      ∃ m : InvokeResult, (svc.invoke (constOk resp) opts).1 = .ok m ∧
        m.map Prod.fst = resp.map Prod.fst ∧
        ∀ k : String, alookup k m = (alookup k resp).map InvokeValue.raw)
    ∧ (∀ xs : List JValue, alookup "sent_messages" resp = some (JValue.arr xs) →
      ∃ m : InvokeResult, (svc.invoke (constOk resp) opts).1 = .ok m ∧
        m.map Prod.fst = resp.map Prod.fst ∧
        (∀ k : String, k ≠ "sent_messages" →
          alookup k m = (alookup k resp).map InvokeValue.raw) ∧
        ∃ ms : List Message, alookup "sent_messages" m =
            some (InvokeValue.messages ms) ∧
          ms.length = xs.length ∧
          ∀ i : Nat, ms[i]? = (xs[i]?).map Message.mk) := by
  constructor
  · intro h
    refine ⟨resp.map (fun kv => (kv.1, InvokeValue.raw kv.2)), ?_, ?_, ?_⟩
    · simp [Service.invoke, constOk, processInvokeResult, h]
    · simp
    · intro k
      exact alookup_map_val k (fun _ v => InvokeValue.raw v) resp
  · intro xs h
    refine ⟨resp.map (fun kv =>
      (kv.1, if kv.1 = "sent_messages"
             then InvokeValue.messages (xs.map Message.mk)
             else InvokeValue.raw kv.2)), ?_, ?_, ?_, ?_⟩
    · simp [Service.invoke, constOk, processInvokeResult, h, jIter]
    · simp
    · intro k hk
      rw [alookup_map_val k
        (fun k v => if k = "sent_messages"
                    then InvokeValue.messages (xs.map Message.mk)
                    else InvokeValue.raw v) resp]
      simp [hk]
    · refine ⟨xs.map Message.mk, ?_, by simp, by simp⟩
      rw [alookup_map_val "sent_messages"
        (fun k v => if k = "sent_messages"
                    then InvokeValue.messages (xs.map Message.mk)
                    else InvokeValue.raw v) resp, h]
      simp

/-- Witness for C9 at a concrete service and response: the untouched key keeps
its raw value. -/
theorem invoke_response_frame_witness :
    ∃ m : InvokeResult, (svcEx.invoke (constOk respEx) []).1 = .ok m ∧
      alookup "return_value" m = some (InvokeValue.raw (JValue.str "ok")) := by
  obtain ⟨m, hm, -, hframe, -⟩ :=
    (invoke_response_frame svcEx [] respEx).2 [msgDataEx] rfl
  exact ⟨m, hm, by rw [hframe "return_value" (by decide)]; rfl⟩

/-- C4 fails on the code: Service.invoke performs no client-side validation of
the context option; with a context outside the allowed set the HTTP request is
still issued. -/
theorem invoke_context_not_validated_client_side :
    (svcEx.invoke (constOk []) [("context", JValue.str "bogus")]).2 ≠ [] := by
  simp [Service.invoke, constOk]

/-- C4 amended: Service.invoke performs no client-side validation of context;
for every options mapping it issues exactly one POST to getBaseApiPath() +
"/invoke" with the options forwarded unchanged, and the allowed values are
enforced server-side only. -/
theorem invoke_forwards_options_without_validation (svc : Service)
    (d : Dispatcher) (opts : JObj) :
    (svc.invoke d opts).2 =
      [⟨"POST", svc.getBaseApiPath ++ "/invoke", opts⟩] := by
  cases h : d ⟨"POST", svc.getBaseApiPath ++ "/invoke", opts⟩ <;>
    simp [Service.invoke, h]

/-- C2: setContactState with a null id and resetContactState address the same
per-contact state resource, and the two issued requests have the same effect on
the server's per-contact state store: both reset the contact's state. -/
theorem setContactState_null_id_equiv_resetContactState (svc : Service)
    (d : Dispatcher) (c : Contact) (cid : String) (opts : JObj)
    (store : List (String × JObj))
    (hc : c.id = some cid) (hid : alookup "id" opts = some JValue.null) :
    (svc.setContactState d c opts).2 =
        [⟨"POST", svc.getBaseApiPath ++ "/states/" ++ cid, opts⟩]
    ∧ (svc.resetContactState d c).2 =
        [⟨"DELETE", svc.getBaseApiPath ++ "/states/" ++ cid, []⟩]
    ∧ serverStateTransition store cid (routeState "POST" opts) =
        serverStateTransition store cid (routeState "DELETE" [])
    ∧ serverStateTransition store cid (routeState "POST" opts) =
        (aerase cid store, .ok placeholderState) := by
  refine ⟨?_, ?_, ?_, ?_⟩
  · cases h : d ⟨"POST", svc.getBaseApiPath ++ "/states/" ++ cid, opts⟩ <;>
      simp [Service.setContactState, contactStatePath, hc, h]
  · cases h : d ⟨"DELETE", svc.getBaseApiPath ++ "/states/" ++ cid, []⟩ <;>
      simp [Service.resetContactState, contactStatePath, hc, h]
  · simp [routeState, serverStateTransition, hid]
  · simp [routeState, serverStateTransition, hid]

/-- Witness for C2 at a concrete service, contact, options and store. -/
theorem setContactState_null_id_equiv_resetContactState_witness :
    serverStateTransition storeEx "CT1" (routeState "POST" [("id", JValue.null)]) =
      serverStateTransition storeEx "CT1" (routeState "DELETE" []) :=
  (setContactState_null_id_equiv_resetContactState svcEx (constOk []) contactEx
    "CT1" [("id", JValue.null)] storeEx rfl rfl).2.2.1

/-- C3: for a contact with no stored state for this service, getContactState
run against the spec-modelled server returns a valid ContactServiceState whose
id is null, and does not raise NotFoundError. -/
theorem getContactState_missing_state_placeholder (svc : Service)
    (store : List (String × JObj)) (c : Contact) (cid : String)
    (hc : c.id = some cid) (hs : alookup cid store = none) :
    (svc.getContactState (stateDispatcher store svc.getBaseApiPath cid) c).1 =
        .ok ⟨placeholderState⟩
    ∧ (∀ st : ContactServiceState,
        (svc.getContactState (stateDispatcher store svc.getBaseApiPath cid) c).1 =
          .ok st → st.sid = some JValue.null)
    ∧ ∀ msg : String,
        (svc.getContactState (stateDispatcher store svc.getBaseApiPath cid) c).1 ≠
          .error (.server (.notFound msg)) := by
  have hres : (svc.getContactState (stateDispatcher store svc.getBaseApiPath cid) c).1 =
      .ok ⟨placeholderState⟩ := by
    simp [Service.getContactState, contactStatePath, hc, stateDispatcher,
      routeState, serverStateTransition, hs]
  refine ⟨hres, ?_, ?_⟩
  · intro st hst
    rw [hres] at hst
    cases hst
    rfl
  · intro msg h
    rw [hres] at h
    cases h

/-- Witness for C3 at a concrete service, store and contact. -/
theorem getContactState_missing_state_placeholder_witness :
    (svcEx.getContactState (stateDispatcher storeEx svcEx.getBaseApiPath "CT1")
        contactEx).1 = .ok ⟨placeholderState⟩ :=
  (getContactState_missing_state_placeholder svcEx storeEx contactEx "CT1"
    rfl rfl).1

/-- C5: queryContactStates returns a cursor over ContactServiceState holding the
service's states path and the given filter options, issues no request at
construction, and the first access issues one GET with the stored options. -/
theorem queryContactStates_lazy_cursor (svc : Service) (opts : JObj)
    (d : Dispatcher) :
    (svc.queryContactStates opts).2 = []
    ∧ (svc.queryContactStates opts).1.itemType = "ContactServiceState"
    ∧ (svc.queryContactStates opts).1.path = svc.getBaseApiPath ++ "/states"
    ∧ (svc.queryContactStates opts).1.options = opts
    ∧ (svc.queryContactStates opts).1.fetched = false
    ∧ ((svc.queryContactStates opts).1.firstFetch d).2 =
        [⟨"GET", svc.getBaseApiPath ++ "/states", opts⟩] := by
  refine ⟨rfl, rfl, rfl, rfl, rfl, ?_⟩
  cases h : d ⟨"GET", svc.getBaseApiPath ++ "/states", opts⟩ <;>
    simp [Service.queryContactStates, newApiCursor, APICursor.firstFetch, h]

/-- C6: save() with an empty dirty set performs no request and does not error;
with a non-empty dirty set it sends exactly the dirty fields in one request and
on success clears the dirty set while leaving every other part of the entity
unchanged. -/
theorem save_sends_only_dirty_fields (svc : Service) (d : Dispatcher) :
    (svc.dirty = [] → svc.save d = ((svc, .ok ()), []))
    ∧ (svc.dirty ≠ [] →
        (svc.save d).2 = [⟨"POST", svc.getBaseApiPath, dirtyPayload svc⟩]
        ∧ ∀ resp : JObj,
            d ⟨"POST", svc.getBaseApiPath, dirtyPayload svc⟩ = .ok resp →
            (svc.save d).1.1.project_id = svc.project_id
            ∧ (svc.save d).1.1.id = svc.id
            ∧ (svc.save d).1.1.fields = svc.fields
            ∧ (svc.save d).1.1.dirty = []
            ∧ (svc.save d).1.2 = .ok ()) := by
  constructor
  · intro h
    simp [Service.save, h]
  · intro h
    constructor
    · cases hd : d ⟨"POST", svc.getBaseApiPath, dirtyPayload svc⟩ <;>
        simp [Service.save, h, hd]
    · intro resp hresp
      simp [Service.save, h, hresp]

/-- Witness for C6 at a clean and at a dirty concrete service. -/
theorem save_sends_only_dirty_fields_witness :
    svcClean.save (constOk []) = ((svcClean, .ok ()), [])
    ∧ (svcEx.save (constOk [])).2 =
        [⟨"POST", svcEx.getBaseApiPath, dirtyPayload svcEx⟩]
    ∧ (svcEx.save (constOk [])).1.1.dirty = [] := by
  refine ⟨(save_sends_only_dirty_fields svcClean (constOk [])).1 rfl, ?_, ?_⟩
  · exact ((save_sends_only_dirty_fields svcEx (constOk [])).2 (by simp [svcEx])).1
  · exact (((save_sends_only_dirty_fields svcEx (constOk [])).2
      (by simp [svcEx])).2 [] rfl).2.2.2.1

/-- C7: getBaseApiPath is exactly "/projects/" + project_id + "/services/" + id
and every Service operation appends its documented suffix to this base path. -/
theorem getBaseApiPath_and_suffixes (svc : Service) (d : Dispatcher)
    (c : Contact) (cid : String) (opts : JObj) (hc : c.id = some cid) :
    svc.getBaseApiPath = "/projects/" ++ svc.project_id ++ "/services/" ++ svc.id
    ∧ (svc.invoke d opts).2.map Request.path = [svc.getBaseApiPath ++ "/invoke"]
    ∧ (svc.getContactState d c).2.map Request.path =
        [svc.getBaseApiPath ++ "/states/" ++ cid]
    ∧ (svc.setContactState d c opts).2.map Request.path =
        [svc.getBaseApiPath ++ "/states/" ++ cid]
    ∧ (svc.resetContactState d c).2.map Request.path =
        [svc.getBaseApiPath ++ "/states/" ++ cid]
    ∧ (svc.queryContactStates opts).1.path = svc.getBaseApiPath ++ "/states" := by
  refine ⟨rfl, ?_, ?_, ?_, ?_, rfl⟩
  · cases h : d ⟨"POST", svc.getBaseApiPath ++ "/invoke", opts⟩ <;>
      simp [Service.invoke, h]
  · cases h : d ⟨"GET", svc.getBaseApiPath ++ "/states/" ++ cid, []⟩ <;>
      simp [Service.getContactState, contactStatePath, hc, h]
  · cases h : d ⟨"POST", svc.getBaseApiPath ++ "/states/" ++ cid, opts⟩ <;>
      simp [Service.setContactState, contactStatePath, hc, h]
  · cases h : d ⟨"DELETE", svc.getBaseApiPath ++ "/states/" ++ cid, []⟩ <;>
      simp [Service.resetContactState, contactStatePath, hc, h]

/-- Witness for C7 at a concrete service and contact. -/
theorem getBaseApiPath_and_suffixes_witness :
    svcEx.getBaseApiPath = "/projects/PJ1/services/SV1"
    ∧ (svcEx.invoke (constOk []) []).2.map Request.path =
        [svcEx.getBaseApiPath ++ "/invoke"] := by
  have h := getBaseApiPath_and_suffixes svcEx (constOk []) contactEx "CT1" [] rfl
  exact ⟨by rw [h.1]; rfl, h.2.1⟩

/-- C8: with a failing dispatcher, every operation surfaces the server error
unchanged (no retry, suppression or rewrapping), and the entity's field mapping
and dirty set are unchanged; queryContactStates issues no request at all. -/
theorem errors_propagate_unchanged (svc : Service) (c : Contact) (cid : String)
    (opts : JObj) (e : ApiError) (hc : c.id = some cid) (hd : svc.dirty ≠ []) :
    (svc.invoke (constErr e) opts).1 = .error (.server e)
    ∧ (svc.getContactState (constErr e) c).1 = .error (.server e)
    ∧ (svc.setContactState (constErr e) c opts).1 = .error (.server e)
    ∧ (svc.resetContactState (constErr e) c).1 = .error (.server e)
    ∧ (svc.save (constErr e)).1.2 = .error (.server e)
    ∧ (svc.save (constErr e)).1.1 = svc
    ∧ (svc.queryContactStates opts).2 = [] := by
  refine ⟨?_, ?_, ?_, ?_, ?_, ?_, rfl⟩ <;>
    simp [Service.invoke, Service.getContactState, Service.setContactState,
      Service.resetContactState, Service.save, contactStatePath, constErr,
      hc, hd]

/-- Witness for C8 at a concrete service, contact and server error. -/
theorem errors_propagate_unchanged_witness :
    (svcEx.invoke (constErr (ApiError.api "boom")) []).1 =
      .error (.server (ApiError.api "boom"))
    ∧ (svcEx.save (constErr (ApiError.api "boom"))).1.1 = svcEx := by
  have h := errors_propagate_unchanged svcEx contactEx "CT1" []
    (ApiError.api "boom") rfl (by simp [svcEx])
  exact ⟨h.1, h.2.2.2.2.2.1⟩

/-- C10: the three per-contact state operations build the same request path
getBaseApiPath() + "/states/" + contact.id, so they address the same resource;
a contact without a defined string id fails client-side during path
construction and no request is issued. -/
theorem state_ops_address_same_resource (svc : Service) (d : Dispatcher)
    (c : Contact) (opts : JObj) :
    (c.id = none →
      (svc.getContactState d c) =
          (.error (.client (.typeError "contact id is not a string")), [])
      ∧ (svc.setContactState d c opts) =
          (.error (.client (.typeError "contact id is not a string")), [])
      ∧ (svc.resetContactState d c) =
          (.error (.client (.typeError "contact id is not a string")), []))
    ∧ (∀ cid : String, c.id = some cid →
      (svc.getContactState d c).2.map Request.path =
          [svc.getBaseApiPath ++ "/states/" ++ cid]
      ∧ (svc.setContactState d c opts).2.map Request.path =
          [svc.getBaseApiPath ++ "/states/" ++ cid]
      ∧ (svc.resetContactState d c).2.map Request.path =
          [svc.getBaseApiPath ++ "/states/" ++ cid]) := by
  constructor
  · intro h
    refine ⟨?_, ?_, ?_⟩ <;>
      simp [Service.getContactState, Service.setContactState,
        Service.resetContactState, contactStatePath, h]
  · intro cid hc
    refine ⟨?_, ?_, ?_⟩
    · cases h : d ⟨"GET", svc.getBaseApiPath ++ "/states/" ++ cid, []⟩ <;>
        simp [Service.getContactState, contactStatePath, hc, h]
    · cases h : d ⟨"POST", svc.getBaseApiPath ++ "/states/" ++ cid, opts⟩ <;>
        simp [Service.setContactState, contactStatePath, hc, h]
    · cases h : d ⟨"DELETE", svc.getBaseApiPath ++ "/states/" ++ cid, []⟩ <;>
        simp [Service.resetContactState, contactStatePath, hc, h]

/-- Witness for C10 at a concrete contact without an id and a contact with
one. -/
theorem state_ops_address_same_resource_witness :
    (svcEx.getContactState (constOk []) contactNone).2 = []
    ∧ (svcEx.getContactState (constOk []) contactEx).2.map Request.path =
        [svcEx.getBaseApiPath ++ "/states/" ++ "CT1"] := by
  have h := state_ops_address_same_resource svcEx (constOk []) contactNone []
  have h2 := state_ops_address_same_resource svcEx (constOk []) contactEx []
  exact ⟨congrArg Prod.snd (h.1 rfl).1, (h2.2 "CT1" rfl).1⟩

end Telerivet
